import Mathlib

/-!
Shallow embedding of the secure-canvas-cipher progressive transform and
session workflow engine.

The definitions below are translated from the repository sources:
* the remote-path dashboard variant (`src/unnamed/part_002`): component state,
  upload validation, `handleEncrypt`, `handleDecrypt`, `handleReset`,
  history insertion, and the `ActionButtons` enable/disable guards;
* the local-simulation dashboard variant
  (`src/src/components/EncryptionDashboard.tsx`): the batched pixel
  transformer `simulateProgressiveEncryption`, `simulateDecryption`,
  the per-pixel LSB and noise mutations, and `generateMetrics`.

Machine numbers are modelled as `Nat` (8-bit channel values, clock readings)
and `ℚ` (JavaScript floating-point quantities: progress percentages, random
draws, metric scores).  Pseudo-random draws and remote responses are passed
in explicitly as environment arguments.
-/

/-- Algorithm selectors, from `EncryptionAlgorithm` in
`src/unnamed/part_000`: `'aes' | 'blowfish' | 'lsb' | 'chaos' | 'hybrid'`. -/
inductive Algorithm where
  | aes
  | blowfish
  | lsb
  | chaos
  | hybrid
  deriving DecidableEq

/-- Message severities, from `MessageType` in
`src/frontend/src/components/ErrorMessage.tsx`:
`'success' | 'error' | 'warning' | 'info'`. -/
inductive MessageType where
  | success
  | error
  | warning
  | info
  deriving DecidableEq

/-- `MetricsData` from `src/unnamed/part_002`. -/
structure MetricsData where
  encryptionTime : ℚ
  decryptionTime : ℚ
  psnr : ℚ
  ssim : ℚ
  deriving DecidableEq

/-- `HistoryItem` from `src/unnamed/part_002`. -/
structure HistoryItem where
  id : String
  originalName : String
  algorithm : Algorithm
  timestamp : Nat
  encryptedUrl : Option String
  encryptedFilename : Option String
  decryptedUrl : Option String
  metrics : Option MetricsData
  deriving DecidableEq

/-- `ErrorState` from `src/unnamed/part_002`. -/
structure ErrorState where
  type : MessageType
  message : String
  details : Option String
  deriving DecidableEq

/-- The parts of a DOM `File` object that the dashboard reads. -/
structure UploadedFile where
  name : String
  mimeType : String
  size : Nat
  deriving DecidableEq

/-- The component state of `EncryptionDashboard` in `src/unnamed/part_002`:
one field per `useState` hook.  This is the workflow snapshot (together with
the session history and the secondary inputs). -/
structure DashboardState where
  uploadedImage : Option UploadedFile
  selectedAlgorithm : Algorithm
  originalImageUrl : Option String
  encryptedImageUrl : Option String
  decryptedImageUrl : Option String
  metrics : Option MetricsData
  decryptedMessage : Option String
  isProcessing : Bool
  hasEncrypted : Bool
  progress : ℚ
  history : List HistoryItem
  errorState : Option ErrorState
  passphrase : String
  lsbMessage : String
  deriving DecidableEq

/-- The initial state: the `useState` initialisers of `src/unnamed/part_002`
(`null`/`false`/`0`/`[]`/`''`, algorithm `'aes'`). -/
def initialState : DashboardState where
  uploadedImage := none
  selectedAlgorithm := .aes
  originalImageUrl := none
  encryptedImageUrl := none
  decryptedImageUrl := none
  metrics := none
  decryptedMessage := none
  isProcessing := false
  hasEncrypted := false
  progress := 0
  history := []
  errorState := none
  passphrase := ""
  lsbMessage := ""

/-- `handleReset` from `src/unnamed/part_002` (lines 310-324): clears the
uploaded image, the three image URLs, metrics, the encrypted flag, progress,
the error state, the selector and both secondary inputs.  It does not touch
`history`, and it does not touch `decryptedMessage`. -/
def handleReset (s : DashboardState) : DashboardState :=
  { s with
    uploadedImage := none
    originalImageUrl := none
    encryptedImageUrl := none
    decryptedImageUrl := none
    metrics := none
    hasEncrypted := false
    progress := 0
    errorState := none
    selectedAlgorithm := .aes
    passphrase := ""
    lsbMessage := "" }

/-! ### Identifier generation

History identifiers come from `Date.now().toString()`
(`src/unnamed/part_002`, line 207).  `jsNatToString` models
JavaScript `Number.prototype.toString` on a non-negative integer: the
decimal digit string, `"0"` for zero, no leading zeros.  The fuel-based
helper mirrors the repeated divide-by-ten loop. -/

/-- Little-endian decimal digits of `n` (at most `fuel` of them). -/
def decDigitsCore (fuel n : Nat) : List Char :=
  match fuel with
  | 0 => []
  | fuel + 1 => if n = 0 then [] else Nat.digitChar (n % 10) :: decDigitsCore fuel (n / 10)

/-- JavaScript `Number.prototype.toString` for a non-negative integer
(`Date.now()` values): decimal representation. -/
def jsNatToString (n : Nat) : String :=
  if n = 0 then "0" else ((decDigitsCore n n).reverse).asString

/-- Decode a little-endian decimal digit string; left inverse used to show
`jsNatToString` is injective. -/
def decodeDecDigits : List Char → Nat
  | [] => 0
  | c :: cs => (c.toNat - 48) + 10 * decodeDecDigits cs

/-! ### Upload validation and the transform request handlers
(`src/unnamed/part_002`) -/

/-- Backend base URL (`src/unnamed/part_002`, line 40). -/
def API_URL : String := "http://localhost:5050"

/-- `validateFile` accepts exactly JPEG/PNG/BMP at most 10 MiB
(`src/unnamed/part_002`, lines 74-94).  Returns the error it reports when
it rejects, and `none` when the file is valid. -/
def validateFileError (f : UploadedFile) : Option ErrorState :=
  if f.mimeType ∉ ["image/jpeg", "image/png", "image/bmp"] then
    some ⟨.error, "Invalid file type", some "Please upload a JPG, PNG, or BMP image file."⟩
  else if f.size > 10 * 1024 * 1024 then
    some ⟨.error, "File too large", some "Please upload an image smaller than 10MB."⟩
  else none

/-- `handleImageUpload` (`src/unnamed/part_002`, lines 96-123).  `url` is the
object URL the browser mints for the file. -/
def handleImageUpload (s : DashboardState) (f : UploadedFile) (url : String) :
    DashboardState :=
  match validateFileError f with
  | some err => { s with errorState := some err }
  | none =>
    if f.name.startsWith "encrypted_" then
      { s with
        uploadedImage := none
        encryptedImageUrl := some url
        decryptedImageUrl := none
        originalImageUrl := none
        hasEncrypted := true
        metrics := none
        progress := 0
        errorState := none }
    else
      { s with
        uploadedImage := some f
        originalImageUrl := some url
        encryptedImageUrl := none
        decryptedImageUrl := none
        hasEncrypted := false
        metrics := none
        progress := 0
        errorState := none }

/-- Response of `POST /encrypt` as read by `handleEncrypt`
(`src/unnamed/part_002`). -/
structure EncryptResponse where
  error : Option String
  encrypted_image : Option String
  encrypted_file_url : Option String
  encrypted_filename : Option String
  deriving DecidableEq

/-- Response of `POST /decrypt` as read by `handleDecrypt`
(`src/unnamed/part_002`). -/
structure DecryptResponse where
  error : Option String
  decrypted_image : Option String
  decrypted_file_url : Option String
  decrypted_message : Option String
  deriving DecidableEq

/-- Outcome of an awaited remote call: a parsed response, or a thrown
exception (network/encoding failure) carrying its message. -/
inductive ApiOutcome (α : Type) where
  | ok (resp : α)
  | thrown (msg : String)
  deriving DecidableEq

/-- Everything outside the component state that one run of `handleEncrypt`
reads: the remote call outcome, the `Date.now()` reading, and the three
`Math.random()` draws of the metrics block. -/
structure EncEnv where
  outcome : ApiOutcome EncryptResponse
  now : Nat
  r1 : ℚ
  r3 : ℚ
  r4 : ℚ

/-- Everything one run of `handleDecrypt` reads: the remote call outcome and
the `Math.random()` draw for `decryptionTime`. -/
structure DecEnv where
  outcome : ApiOutcome DecryptResponse
  rDec : ℚ

/-- The encrypted-image URL chosen on success (`src/unnamed/part_002`,
lines 186-189): the backend file URL when present, otherwise an inline
base64 data URL. -/
def encryptedUrlOf (resp : EncryptResponse) : String :=
  match resp.encrypted_file_url with
  | some u => API_URL ++ u
  | none => "data:image/png;base64," ++ resp.encrypted_image.getD "undefined"

/-- The dummy metrics attached on encrypt success (`src/unnamed/part_002`,
lines 197-202): built from three `Math.random()` draws, independent of the
selected algorithm. -/
def part002Metrics (r1 r3 r4 : ℚ) : MetricsData where
  encryptionTime := r1 * 500 + 100
  decryptionTime := 0
  psnr := 30 + r3 * 10
  ssim := 0.7 + r4 * 0.3

/-- The history item recorded on encrypt success (`src/unnamed/part_002`,
lines 205-214): id and timestamp from `Date.now()`. -/
def mkHistoryItem (now : Nat) (name : String) (alg : Algorithm) (url : String)
    (fname : Option String) (m : MetricsData) : HistoryItem where
  id := jsNatToString now
  originalName := name
  algorithm := alg
  timestamp := now
  encryptedUrl := some url
  encryptedFilename := fname
  decryptedUrl := none
  metrics := some m

/-- `handleEncrypt` (`src/unnamed/part_002`, lines 146-230) as a state
transformer.  Guard: no uploaded image reports an error and returns (the
`!selectedAlgorithm` guard can never fire: every selector string is truthy).
On a structured error or a thrown exception the error is recorded and
processing stops; on success the encrypted URL, flag, metrics and history
are updated and the original image URL is cleared.  The `finally` block
always ends with `isProcessing = false` and `progress = 0`. -/
def handleEncryptStep (s : DashboardState) (env : EncEnv) : DashboardState :=
  match s.uploadedImage with
  | none => { s with errorState := some ⟨.error, "No image uploaded", none⟩ }
  | some f =>
    match env.outcome with
    | .thrown msg =>
      { s with
        errorState := some ⟨.error, "Encryption failed", some msg⟩
        isProcessing := false
        progress := 0 }
    | .ok resp =>
      match resp.error with
      | some e =>
        { s with
          errorState := some ⟨.error, e, none⟩
          isProcessing := false
          progress := 0 }
      | none =>
        { s with
          encryptedImageUrl := some (encryptedUrlOf resp)
          hasEncrypted := true
          originalImageUrl := none
          metrics := some (part002Metrics env.r1 env.r3 env.r4)
          history :=
            mkHistoryItem env.now f.name s.selectedAlgorithm (encryptedUrlOf resp)
                resp.encrypted_filename (part002Metrics env.r1 env.r3 env.r4) ::
              s.history.take 9
          errorState := none
          isProcessing := false
          progress := 0 }

/-- `handleDecrypt` (`src/unnamed/part_002`, lines 232-307) as a state
transformer.  Guard: with no encrypted image it reports a precondition error
and returns without starting anything.  On success the `lsb` branch shows
the encrypted image as the decrypted one and stores the recovered message;
other selectors set the decrypted URL (and also the original URL). -/
def handleDecryptStep (s : DashboardState) (env : DecEnv) : DashboardState :=
  match s.encryptedImageUrl with
  | none => { s with errorState := some ⟨.error, "No encrypted image to decrypt", none⟩ }
  | some encUrl =>
    match env.outcome with
    | .thrown msg =>
      { s with
        errorState := some ⟨.error, "Decryption failed", some msg⟩
        isProcessing := false
        progress := 0 }
    | .ok resp =>
      match resp.error with
      | some e =>
        { s with
          errorState := some ⟨.error, e, none⟩
          isProcessing := false
          progress := 0 }
      | none =>
        if s.selectedAlgorithm = .lsb then
          { s with
            decryptedImageUrl := some encUrl
            metrics := s.metrics.map fun m => { m with decryptionTime := env.rDec * 400 + 100 }
            decryptedMessage := resp.decrypted_message
            errorState := none
            isProcessing := false
            progress := 0 }
        else
          let decryptedUrl :=
            match resp.decrypted_file_url with
            | some u => API_URL ++ u
            | none => "data:image/png;base64," ++ resp.decrypted_image.getD "undefined"
          { s with
            decryptedImageUrl := some decryptedUrl
            metrics := s.metrics.map fun m => { m with decryptionTime := env.rDec * 400 + 100 }
            originalImageUrl := some decryptedUrl
            errorState := none
            isProcessing := false
            progress := 0 }

/-! ### The control-surface guards (`ActionButtons`, `src/unnamed/part_002`)

The encrypt and decrypt buttons are rendered with
`disabled={!canEncrypt || isProcessing}` and
`disabled={!canDecrypt || isProcessing}` (lines 972-991); a click on a
disabled button dispatches nothing.  `canEncrypt` and `canDecrypt` are the
expressions passed at lines 499-500. -/

/-- `canEncrypt` (`src/unnamed/part_002`, line 499):
`!!uploadedImage && (selectedAlgorithm !== 'aes' || passphrase.length > 0)`. -/
def canEncrypt (s : DashboardState) : Bool :=
  s.uploadedImage.isSome && (decide (s.selectedAlgorithm ≠ .aes) || decide (0 < s.passphrase.length))

/-- `canDecrypt` (`src/unnamed/part_002`, line 500):
`hasEncrypted && (selectedAlgorithm !== 'aes' || passphrase.length > 0)`. -/
def canDecrypt (s : DashboardState) : Bool :=
  s.hasEncrypted && (decide (s.selectedAlgorithm ≠ .aes) || decide (0 < s.passphrase.length))

/-- A click on the encrypt button: nothing happens while the button is
disabled, otherwise `handleEncrypt` runs. -/
def clickEncrypt (s : DashboardState) (env : EncEnv) : DashboardState :=
  if !canEncrypt s || s.isProcessing then s else handleEncryptStep s env

/-- A click on the decrypt button: nothing happens while the button is
disabled, otherwise `handleDecrypt` runs. -/
def clickDecrypt (s : DashboardState) (env : DecEnv) : DashboardState :=
  if !canDecrypt s || s.isProcessing then s else handleDecryptStep s env

/-! ### The batched pixel transformer
(`simulateProgressiveEncryption` and `simulateEncryption` in
`src/src/components/EncryptionDashboard.tsx`) -/

/-- One RGBA pixel of the canvas bitmap; channel values are bytes. -/
structure Pixel where
  r : Nat
  g : Nat
  b : Nat
  a : Nat
  deriving DecidableEq

/-- The per-channel `lsb` mutation
(`src/src/components/EncryptionDashboard.tsx`, lines 397-401):
`(c & 0xFE) | (Math.random() > 0.5 ? 1 : 0)` — the low bit is overwritten
with the random draw `bit`. -/
def lsbChannel (c : Nat) (bit : Bool) : Nat :=
  (c &&& 0xFE) ||| (if bit then 1 else 0)

/-- The per-pixel `lsb` mutation: an independent random bit for each of the
first three channels; the alpha channel is not written. -/
def lsbTransformPixel (p : Pixel) (b0 b1 b2 : Bool) : Pixel where
  r := lsbChannel p.r b0
  g := lsbChannel p.g b1
  b := lsbChannel p.b b2
  a := p.a

/-- The noise offset of the non-`lsb` branch
(`src/src/components/EncryptionDashboard.tsx`, line 404):
`Math.random() * 50 - 25` for a draw `rand ∈ [0, 1)`. -/
def noiseOffset (rand : ℚ) : ℚ := rand * 50 - 25

/-- `Math.max(0, Math.min(255, x))` (lines 405-407). -/
def clampChannel (x : ℚ) : ℚ := max 0 (min 255 x)

/-- Channel values of the JavaScript computation are floats; the alpha
channel is carried along untouched. -/
structure QPixel where
  r : ℚ
  g : ℚ
  b : ℚ
  a : ℚ
  deriving DecidableEq

/-- The per-pixel non-`lsb` mutation (lines 402-408): one noise draw `rand`
is shared by the three colour channels of a pixel, each clamped to the byte
range; the alpha channel is not written. -/
def noisyTransformPixel (p : QPixel) (rand : ℚ) : QPixel where
  r := clampChannel (p.r + noiseOffset rand)
  g := clampChannel (p.g + noiseOffset rand)
  b := clampChannel (p.b + noiseOffset rand)
  a := p.a

/-- Chunk size of the batched transformer
(`src/src/components/EncryptionDashboard.tsx`, line 389):
`Math.max(1000, Math.floor(totalPixels / 20))`. -/
def batchSize (totalPixels : Nat) : Nat := max 1000 (totalPixels / 20)

/-- The successive values of `processedPixels` observed at the end of each
batch of `processBatch` (lines 391-427): each batch advances by
`batchSize total`, capped at `total`. -/
def progressSteps (total processed : Nat) : List Nat :=
  if _h : processed < total then
    min (processed + batchSize total) total ::
      progressSteps total (min (processed + batchSize total) total)
  else []
termination_by total - processed
decreasing_by
  have hb : 1000 ≤ batchSize total := le_max_left _ _
  omega

/-- The progress percentages emitted by `setProgress` during one run of
`simulateProgressiveEncryption` (line 412-413):
`processedPixels / totalPixels * 100` after each batch. -/
def encryptionProgress (total : Nat) : List ℚ :=
  (progressSteps total 0).map fun (p : ℕ) => (p : ℚ) / (total : ℚ) * 100

/-- The progress percentages emitted by `simulateDecryption`
(`src/src/components/EncryptionDashboard.tsx`, lines 441-454):
`currentProgress` starts at 0, the interval adds 10 each tick and emits the
new value, and the promise resolves once it reaches 100 — so one run emits
exactly this ramp. -/
def decryptionProgress : List ℚ :=
  [10, 20, 30, 40, 50, 60, 70, 80, 90, 100]

/-! ### The metrics estimator
(`generateMetrics`, `src/src/components/EncryptionDashboard.tsx`,
lines 456-466) -/

/-- `generateMetrics`: four `Math.random()` draws `r1 r2 r3 r4 ∈ [0, 1)`;
PSNR and SSIM ranges depend on whether the selector is `lsb`. -/
def generateMetrics (alg : Algorithm) (r1 r2 r3 r4 : ℚ) : MetricsData :=
  let baseEncryption : ℚ := if alg = .lsb then 50 else if alg = .aes then 200 else 150
  let baseDecryption : ℚ := baseEncryption * 0.8
  { encryptionTime := baseEncryption + r1 * 100
    decryptionTime := baseDecryption + r2 * 80
    psnr := if alg = .lsb then 45 + r3 * 10 else 25 + r3 * 15
    ssim := if alg = .lsb then 0.95 + r4 * 0.04 else 0.7 + r4 * 0.2 }

/-! ### Concrete fixtures used to instantiate the theorems below -/

/-- A small valid PNG upload. -/
def sampleFile : UploadedFile := ⟨"photo.png", "image/png", 1024⟩

/-- A pre-existing history record. -/
def dummyItem : HistoryItem := ⟨"1", "old.png", .aes, 1, some "u", none, none, none⟩

/-- A state whose history already holds ten records and which has an
uploaded image. -/
def fullHistoryState : DashboardState :=
  { initialState with
    uploadedImage := some sampleFile
    selectedAlgorithm := .lsb
    history := List.replicate 10 dummyItem }

/-- A successful `/encrypt` response carrying an inline image. -/
def okEncResponse : EncryptResponse := ⟨none, some "IMG", none, none⟩

/-- An encrypt run environment: successful response, clock reading
1700000000000 ms, all random draws 0. -/
def okEncEnv : EncEnv := ⟨.ok okEncResponse, 1700000000000, 0, 0, 0⟩

/-- An encrypt run environment whose remote call throws. -/
def failEncEnv : EncEnv := ⟨.thrown "network error", 0, 0, 0, 0⟩

/-- A decrypt run environment whose remote call throws. -/
def failDecEnv : DecEnv := ⟨.thrown "network error", 0⟩

/-- A successful `/decrypt` response for an `lsb` operation: it carries the
recovered message instead of an image. -/
def okDecResponseLsb : DecryptResponse := ⟨none, none, none, some "hi"⟩

/-- A state mid-operation. -/
def busyState : DashboardState := { initialState with isProcessing := true }

/-- The state after uploading `sampleFile` into a fresh session. -/
def afterUpload : DashboardState := handleImageUpload initialState sampleFile "blob:a"

/-- ... then selecting `lsb` and typing the secret message `"hi"`. -/
def lsbConfigured : DashboardState :=
  { afterUpload with selectedAlgorithm := .lsb, lsbMessage := "hi" }

/-- ... then completing a forward transform. -/
def afterLsbEncrypt : DashboardState := handleEncryptStep lsbConfigured okEncEnv

/-- ... then completing a reverse transform, which recovers the message. -/
def afterLsbDecrypt : DashboardState :=
  handleDecryptStep afterLsbEncrypt ⟨.ok okDecResponseLsb, 0⟩

/-! ## Theorems -/

theorem digitChar_toNat_sub (d : Nat) (h : d < 10) : (Nat.digitChar d).toNat - 48 = d := by
  interval_cases d <;> rfl

theorem decode_decDigitsCore (fuel n : Nat) (h : n ≤ fuel) :
    decodeDecDigits (decDigitsCore fuel n) = n := by
  induction fuel generalizing n with
  | zero => simp only [decDigitsCore, decodeDecDigits]; omega
  | succ fuel ih =>
    by_cases h0 : n = 0
    · simp [decDigitsCore, h0, decodeDecDigits]
    · have hdiv : n / 10 ≤ fuel := by omega
      simp only [decDigitsCore, h0, if_false, decodeDecDigits, ih _ hdiv,
        digitChar_toNat_sub (n % 10) (Nat.mod_lt n (by omega))]
      omega

theorem decode_jsNatToString (n : Nat) :
    decodeDecDigits (jsNatToString n).data.reverse = n := by
  by_cases h0 : n = 0
  · subst h0; rfl
  · simp only [jsNatToString, h0, if_false, List.asString, List.reverse_reverse]
    exact decode_decDigitsCore n n le_rfl

theorem jsNatToString_injective {m n : Nat} (h : jsNatToString m = jsNatToString n) :
    m = n := by
  have := congrArg (fun s : String => decodeDecDigits s.data.reverse) h
  simpa only [decode_jsNatToString] using this

theorem chain'_of_chain {R : ℕ → ℕ → Prop} {a : ℕ} {l : List ℕ}
    (h : List.Chain R a l) : List.Chain' R l := by
  cases l with
  | nil => trivial
  | cons c t => exact (List.chain_cons.mp h).2

theorem progressSteps_chain (total processed : Nat) :
    List.Chain (· ≤ ·) processed (progressSteps total processed) := by
  rw [progressSteps]
  split
  · rename_i h
    have hb : 1000 ≤ batchSize total := le_max_left _ _
    exact List.Chain.cons (by omega) (progressSteps_chain total _)
  · exact List.Chain.nil
termination_by total - processed
decreasing_by omega

theorem progressSteps_getLast (total processed : Nat) (h : processed < total) :
    (progressSteps total processed).getLast? = some total := by
  rw [progressSteps, dif_pos h]
  by_cases h2 : min (processed + batchSize total) total < total
  · obtain ⟨c, t, heq⟩ :
        ∃ c t, progressSteps total (min (processed + batchSize total) total) = c :: t := by
      rw [progressSteps, dif_pos h2]; exact ⟨_, _, rfl⟩
    rw [heq, List.getLast?_cons_cons, ← heq]
    exact progressSteps_getLast total _ h2
  · have hb : 1000 ≤ batchSize total := le_max_left _ _
    have heq : min (processed + batchSize total) total = total := by omega
    rw [progressSteps, dif_neg h2, heq]
    rfl
termination_by total - processed
decreasing_by
  have hb : 1000 ≤ batchSize total := le_max_left _ _
  omega

/-- C1: in every state whose `in-progress` flag is true, submitting a new
forward or reverse transform request is rejected — the disabled buttons
dispatch nothing, so the state is unchanged, and any continuation (in
particular the eventual result of the in-flight operation) computed from the
post-click state equals the one computed from the pre-click state. -/
theorem inflight_request_rejected (s : DashboardState) (env : EncEnv) (envD : DecEnv)
    (h : s.isProcessing = true) :
    clickEncrypt s env = s ∧ clickDecrypt s envD = s ∧
      ∀ k : DashboardState → DashboardState, k (clickEncrypt s env) = k s := by
  have he : clickEncrypt s env = s := by simp [clickEncrypt, h]
  have hd : clickDecrypt s envD = s := by simp [clickDecrypt, h]
  exact ⟨he, hd, fun k => by rw [he]⟩

/-- Witness for C1 at a concrete busy state and concrete environments. -/
theorem inflight_request_rejected_witness :
    busyState.isProcessing = true ∧
      (clickEncrypt busyState failEncEnv = busyState ∧
        clickDecrypt busyState failDecEnv = busyState ∧
        ∀ k : DashboardState → DashboardState, k (clickEncrypt busyState failEncEnv) = k busyState) :=
  ⟨rfl, inflight_request_rejected busyState failEncEnv failDecEnv rfl⟩

/-- C10: `handleReset` leaves the session history list exactly unchanged:
every Operation Record stored before the reset is still present, in the same
order, afterwards. -/
theorem reset_preserves_history (s : DashboardState) :
    (handleReset s).history = s.history := rfl

/-- Counterexample to C5 as stated: attempting a reverse transform on the
initial state (no forward-result) does change the snapshot — the error field
goes from `none` to the precondition error, so not every field is left
unchanged. -/
theorem decrypt_guard_changes_snapshot :
    initialState.encryptedImageUrl = none ∧
      (handleDecryptStep initialState failDecEnv).errorState =
        some ⟨.error, "No encrypted image to decrypt", none⟩ ∧
      handleDecryptStep initialState failDecEnv ≠ initialState := by
  refine ⟨rfl, rfl, ?_⟩
  decide

/-- C5 (amended): with no forward-result reference, a reverse attempt is
rejected synchronously — the precondition error is written into the
snapshot's error field and every other field is left unchanged (in
particular no operation starts: `isProcessing` and `progress` keep their
values). -/
theorem decrypt_guard_sets_error_only (s : DashboardState) (env : DecEnv)
    (h : s.encryptedImageUrl = none) :
    handleDecryptStep s env =
      { s with errorState := some ⟨.error, "No encrypted image to decrypt", none⟩ } := by
  unfold handleDecryptStep
  rw [h]

/-- Witness for the amended C5 at the initial state. -/
theorem decrypt_guard_sets_error_only_witness :
    initialState.encryptedImageUrl = none ∧
      handleDecryptStep initialState failDecEnv =
        { initialState with
          errorState := some ⟨.error, "No encrypted image to decrypt", none⟩ } :=
  ⟨rfl, decrypt_guard_sets_error_only initialState failDecEnv rfl⟩

/-- C4 (code bug): on the reachable state obtained by uploading an image,
running an `lsb` forward transform and then the reverse transform that
recovers the message `"hi"`, invoking reset does NOT yield the initial idle
snapshot: `handleReset` never clears `decryptedMessage`, so the recovered
text survives the reset while the initial snapshot has none. -/
theorem reset_retains_recovered_message :
    afterLsbDecrypt.decryptedMessage = some "hi" ∧
      (handleReset afterLsbDecrypt).decryptedMessage = some "hi" ∧
      initialState.decryptedMessage = none ∧
      handleReset afterLsbDecrypt ≠ initialState := by
  refine ⟨?_, ?_, rfl, ?_⟩ <;> decide

/-- C2: on every successful forward completion the new Operation Record is
prepended to the history, the resulting history holds at most 10 records,
and when the history already held exactly 10 records the oldest (last) one
is evicted while the surviving records keep their relative order. -/
theorem history_insert_bounded (s : DashboardState) (env : EncEnv) (f : UploadedFile)
    (resp : EncryptResponse) (hf : s.uploadedImage = some f)
    (hok : env.outcome = .ok resp) (herr : resp.error = none) :
    ((handleEncryptStep s env).history).head? =
        some (mkHistoryItem env.now f.name s.selectedAlgorithm (encryptedUrlOf resp)
          resp.encrypted_filename (part002Metrics env.r1 env.r3 env.r4)) ∧
      ((handleEncryptStep s env).history).length ≤ 10 ∧
      (s.history.length = 10 →
        (handleEncryptStep s env).history =
          mkHistoryItem env.now f.name s.selectedAlgorithm (encryptedUrlOf resp)
              resp.encrypted_filename (part002Metrics env.r1 env.r3 env.r4) ::
            s.history.dropLast) := by
  have hstep : (handleEncryptStep s env).history =
      mkHistoryItem env.now f.name s.selectedAlgorithm (encryptedUrlOf resp)
          resp.encrypted_filename (part002Metrics env.r1 env.r3 env.r4) ::
        s.history.take 9 := by
    simp only [handleEncryptStep, hf, hok, herr]
  refine ⟨by rw [hstep]; rfl, ?_, ?_⟩
  · rw [hstep]
    simp only [List.length_cons, List.length_take]
    omega
  · intro h10
    rw [hstep, List.dropLast_eq_take, h10]

/-- Witness for C2 at a state whose history already holds ten records. -/
theorem history_insert_bounded_witness :
    fullHistoryState.uploadedImage = some sampleFile ∧
      okEncEnv.outcome = .ok okEncResponse ∧ okEncResponse.error = none ∧
      (((handleEncryptStep fullHistoryState okEncEnv).history).head? =
          some (mkHistoryItem okEncEnv.now sampleFile.name fullHistoryState.selectedAlgorithm
            (encryptedUrlOf okEncResponse) okEncResponse.encrypted_filename
            (part002Metrics okEncEnv.r1 okEncEnv.r3 okEncEnv.r4)) ∧
        ((handleEncryptStep fullHistoryState okEncEnv).history).length ≤ 10 ∧
        (fullHistoryState.history.length = 10 →
          (handleEncryptStep fullHistoryState okEncEnv).history =
            mkHistoryItem okEncEnv.now sampleFile.name fullHistoryState.selectedAlgorithm
                (encryptedUrlOf okEncResponse) okEncResponse.encrypted_filename
                (part002Metrics okEncEnv.r1 okEncEnv.r3 okEncEnv.r4) ::
              fullHistoryState.history.dropLast)) :=
  ⟨rfl, rfl, rfl,
    history_insert_bounded fullHistoryState okEncEnv sampleFile okEncResponse rfl rfl rfl⟩

/-- C3: for every input image (a positive number of pixels), the progress
values emitted during a single forward operation are monotonically
non-decreasing and the final emitted value is exactly 100 immediately before
the operation resolves; the same holds for the reverse operation's fixed
10-step ramp. -/
theorem progress_monotone_ends_at_100 (total : Nat) (h : 0 < total) :
    (List.Chain' (· ≤ ·) (encryptionProgress total) ∧
      (encryptionProgress total).getLast? = some 100) ∧
    List.Chain' (· ≤ ·) decryptionProgress ∧ decryptionProgress.getLast? = some 100 := by
  have htQ : (0 : ℚ) < (total : ℚ) := by exact_mod_cast h
  refine ⟨⟨?_, ?_⟩, by norm_num [decryptionProgress, List.chain'_cons], by rfl⟩
  · have hc : List.Chain' (· ≤ ·) (progressSteps total 0) :=
      chain'_of_chain (progressSteps_chain total 0)
    rw [encryptionProgress]
    refine List.chain'_map_of_chain' _ ?_ hc
    intro a b hab
    have hab' : (a : ℚ) ≤ (b : ℚ) := by exact_mod_cast hab
    exact mul_le_mul_of_nonneg_right ((div_le_div_iff_of_pos_right htQ).mpr hab') (by norm_num)
  · rw [encryptionProgress, List.getLast?_map, progressSteps_getLast total 0 h]
    have h100 : (total : ℚ) / (total : ℚ) * 100 = 100 := by
      rw [div_self (ne_of_gt htQ), one_mul]
    simp [h100]

/-- Witness for C3 at a 3-pixel image. -/
theorem progress_monotone_ends_at_100_witness :
    0 < 3 ∧
      ((List.Chain' (· ≤ ·) (encryptionProgress 3) ∧
          (encryptionProgress 3).getLast? = some 100) ∧
        List.Chain' (· ≤ ·) decryptionProgress ∧ decryptionProgress.getLast? = some 100) :=
  ⟨by decide, progress_monotone_ends_at_100 3 (by decide)⟩

/-- Counterexample to C6 as stated: on a black pixel with all three random
draws false, the `lsb` transform returns the pixel unchanged — the red
channel comes back 0, not `0 XOR 1 = 1`, so the output does not differ from
the input in the least-significant bit. -/
theorem lsb_can_leave_channel_unchanged :
    lsbTransformPixel ⟨0, 0, 0, 255⟩ false false false = ⟨0, 0, 0, 255⟩ ∧
      ¬ (lsbTransformPixel ⟨0, 0, 0, 255⟩ false false false).r = 0 ^^^ 1 := by
  exact ⟨rfl, by decide⟩

set_option maxRecDepth 4000 in
theorem lsbChannel_spec (c : Nat) (hc : c < 256) (bit : Bool) :
    lsbChannel c bit / 2 = c / 2 ∧ lsbChannel c bit % 2 = (if bit then 1 else 0) ∧
      lsbChannel c bit < 256 := by
  revert bit
  revert hc
  revert c
  decide

/-- C6 (amended): under the `lsb` selector each of the first three channels
has its lowest-order bit overwritten with an independently drawn random bit
— all higher bits are preserved and the output's low bit equals the drawn
bit (so the channel may also come back unchanged) — and the fourth (alpha)
channel is untouched. -/
theorem lsb_overwrites_low_bit (p : Pixel) (b0 b1 b2 : Bool)
    (hr : p.r < 256) (hg : p.g < 256) (hb : p.b < 256) :
    ((lsbTransformPixel p b0 b1 b2).r / 2 = p.r / 2 ∧
        (lsbTransformPixel p b0 b1 b2).r % 2 = (if b0 then 1 else 0)) ∧
      ((lsbTransformPixel p b0 b1 b2).g / 2 = p.g / 2 ∧
        (lsbTransformPixel p b0 b1 b2).g % 2 = (if b1 then 1 else 0)) ∧
      ((lsbTransformPixel p b0 b1 b2).b / 2 = p.b / 2 ∧
        (lsbTransformPixel p b0 b1 b2).b % 2 = (if b2 then 1 else 0)) ∧
      (lsbTransformPixel p b0 b1 b2).a = p.a := by
  obtain ⟨h1, h2, -⟩ := lsbChannel_spec p.r hr b0
  obtain ⟨h3, h4, -⟩ := lsbChannel_spec p.g hg b1
  obtain ⟨h5, h6, -⟩ := lsbChannel_spec p.b hb b2
  exact ⟨⟨h1, h2⟩, ⟨h3, h4⟩, ⟨h5, h6⟩, rfl⟩

/-- Witness for the amended C6 at a concrete pixel and draws. -/
theorem lsb_overwrites_low_bit_witness :
    (⟨17, 64, 255, 9⟩ : Pixel).r < 256 ∧ (⟨17, 64, 255, 9⟩ : Pixel).g < 256 ∧
      (⟨17, 64, 255, 9⟩ : Pixel).b < 256 ∧
      (((lsbTransformPixel ⟨17, 64, 255, 9⟩ true false true).r / 2 = (17 : Nat) / 2 ∧
          (lsbTransformPixel ⟨17, 64, 255, 9⟩ true false true).r % 2 = 1) ∧
        ((lsbTransformPixel ⟨17, 64, 255, 9⟩ true false true).g / 2 = (64 : Nat) / 2 ∧
          (lsbTransformPixel ⟨17, 64, 255, 9⟩ true false true).g % 2 = 0) ∧
        ((lsbTransformPixel ⟨17, 64, 255, 9⟩ true false true).b / 2 = (255 : Nat) / 2 ∧
          (lsbTransformPixel ⟨17, 64, 255, 9⟩ true false true).b % 2 = 1) ∧
        (lsbTransformPixel ⟨17, 64, 255, 9⟩ true false true).a = 9) :=
  ⟨by decide, by decide, by decide,
    lsb_overwrites_low_bit ⟨17, 64, 255, 9⟩ true false true (by decide) (by decide) (by decide)⟩

/-- C7: for every pixel and every draw `rand ∈ [0, 1)`, the non-`lsb` local
transform offsets the three colour channels by `rand * 50 - 25`, which lies
in `[-25, +25]`, and each resulting channel value is clamped into
`[0, 255]` — whatever the offset, the output channel stays in range. -/
theorem noise_offset_bounded_and_clamped (p : QPixel) (rand : ℚ)
    (h0 : 0 ≤ rand) (h1 : rand < 1) :
    (-25 ≤ noiseOffset rand ∧ noiseOffset rand ≤ 25) ∧
      (0 ≤ (noisyTransformPixel p rand).r ∧ (noisyTransformPixel p rand).r ≤ 255) ∧
      (0 ≤ (noisyTransformPixel p rand).g ∧ (noisyTransformPixel p rand).g ≤ 255) ∧
      (0 ≤ (noisyTransformPixel p rand).b ∧ (noisyTransformPixel p rand).b ≤ 255) ∧
      (noisyTransformPixel p rand).a = p.a := by
  have hclamp : ∀ x : ℚ, 0 ≤ clampChannel x ∧ clampChannel x ≤ 255 := by
    intro x
    unfold clampChannel
    constructor
    · exact le_max_left 0 _
    · exact max_le (by norm_num) (min_le_left 255 x)
  refine ⟨⟨?_, ?_⟩, hclamp _, hclamp _, hclamp _, rfl⟩
  · unfold noiseOffset
    nlinarith
  · unfold noiseOffset
    nlinarith

/-- Witness for C7 at a concrete pixel and draw. -/
theorem noise_offset_bounded_and_clamped_witness :
    (0 : ℚ) ≤ 1 / 2 ∧ (1 / 2 : ℚ) < 1 ∧
      ((-25 ≤ noiseOffset (1 / 2) ∧ noiseOffset (1 / 2) ≤ 25) ∧
        (0 ≤ (noisyTransformPixel ⟨250, 3, 128, 255⟩ (1 / 2)).r ∧
          (noisyTransformPixel ⟨250, 3, 128, 255⟩ (1 / 2)).r ≤ 255) ∧
        (0 ≤ (noisyTransformPixel ⟨250, 3, 128, 255⟩ (1 / 2)).g ∧
          (noisyTransformPixel ⟨250, 3, 128, 255⟩ (1 / 2)).g ≤ 255) ∧
        (0 ≤ (noisyTransformPixel ⟨250, 3, 128, 255⟩ (1 / 2)).b ∧
          (noisyTransformPixel ⟨250, 3, 128, 255⟩ (1 / 2)).b ≤ 255) ∧
        (noisyTransformPixel ⟨250, 3, 128, 255⟩ (1 / 2)).a = 255) :=
  ⟨by norm_num, by norm_num,
    noise_offset_bounded_and_clamped ⟨250, 3, 128, 255⟩ (1 / 2) (by norm_num) (by norm_num)⟩

/-- Counterexample to C8 as stated: in the remote-path variant a completed
`lsb` forward operation gets metrics with `psnr = 30` (draws all 0), which
is not in the claimed 45-55 dB range for the bit-plane-hiding selector. -/
theorem remote_variant_metrics_off_range :
    lsbConfigured.selectedAlgorithm = .lsb ∧
      afterLsbEncrypt.metrics = some (part002Metrics 0 0 0) ∧
      (part002Metrics 0 0 0).psnr = 30 ∧ ¬ 45 ≤ (part002Metrics 0 0 0).psnr := by
  refine ⟨rfl, rfl, by norm_num [part002Metrics], by norm_num [part002Metrics]⟩

/-- C8 (amended): the algorithm-sensitive ranges hold for the metrics
estimator `generateMetrics` of the local-simulation variants — PSNR 45-55 dB
and SSIM 0.95-0.99 under `lsb`, PSNR 25-40 dB and SSIM 0.70-0.90 otherwise —
while the remote-path variant attaches metrics with PSNR in 30-40 dB and
SSIM in 0.70-1.00 regardless of the selector. -/
theorem metrics_ranges (alg : Algorithm) (r1 r2 r3 r4 : ℚ)
    (h30 : 0 ≤ r3) (h31 : r3 < 1) (h40 : 0 ≤ r4) (h41 : r4 < 1) :
    ((alg = .lsb →
        45 ≤ (generateMetrics alg r1 r2 r3 r4).psnr ∧
          (generateMetrics alg r1 r2 r3 r4).psnr ≤ 55 ∧
          0.95 ≤ (generateMetrics alg r1 r2 r3 r4).ssim ∧
          (generateMetrics alg r1 r2 r3 r4).ssim ≤ 0.99) ∧
      (alg ≠ .lsb →
        25 ≤ (generateMetrics alg r1 r2 r3 r4).psnr ∧
          (generateMetrics alg r1 r2 r3 r4).psnr ≤ 40 ∧
          0.7 ≤ (generateMetrics alg r1 r2 r3 r4).ssim ∧
          (generateMetrics alg r1 r2 r3 r4).ssim ≤ 0.9)) ∧
      (30 ≤ (part002Metrics r1 r3 r4).psnr ∧ (part002Metrics r1 r3 r4).psnr ≤ 40 ∧
        0.7 ≤ (part002Metrics r1 r3 r4).ssim ∧ (part002Metrics r1 r3 r4).ssim ≤ 1) := by
  refine ⟨⟨?_, ?_⟩, ?_⟩
  · intro hl
    subst hl
    have hps : (generateMetrics .lsb r1 r2 r3 r4).psnr = 45 + r3 * 10 := by
      simp [generateMetrics]
    have hss : (generateMetrics .lsb r1 r2 r3 r4).ssim = 0.95 + r4 * 0.04 := by
      simp [generateMetrics]
    rw [hps, hss]
    refine ⟨by linarith, by linarith, by linarith, by linarith⟩
  · intro hnl
    have hps : (generateMetrics alg r1 r2 r3 r4).psnr = 25 + r3 * 15 := by
      simp [generateMetrics, hnl]
    have hss : (generateMetrics alg r1 r2 r3 r4).ssim = 0.7 + r4 * 0.2 := by
      simp [generateMetrics, hnl]
    rw [hps, hss]
    refine ⟨by linarith, by linarith, by linarith, by linarith⟩
  · simp only [part002Metrics]
    refine ⟨by linarith, by linarith, by linarith, by linarith⟩

/-- Witness for the amended C8 under the `lsb` selector with draws 1/2. -/
theorem metrics_ranges_witness :
    (0 : ℚ) ≤ 1 / 2 ∧ (1 / 2 : ℚ) < 1 ∧
      (((Algorithm.lsb = Algorithm.lsb →
          45 ≤ (generateMetrics .lsb (1 / 2) (1 / 2) (1 / 2) (1 / 2)).psnr ∧
            (generateMetrics .lsb (1 / 2) (1 / 2) (1 / 2) (1 / 2)).psnr ≤ 55 ∧
            0.95 ≤ (generateMetrics .lsb (1 / 2) (1 / 2) (1 / 2) (1 / 2)).ssim ∧
            (generateMetrics .lsb (1 / 2) (1 / 2) (1 / 2) (1 / 2)).ssim ≤ 0.99) ∧
        (Algorithm.lsb ≠ Algorithm.lsb →
          25 ≤ (generateMetrics .lsb (1 / 2) (1 / 2) (1 / 2) (1 / 2)).psnr ∧
            (generateMetrics .lsb (1 / 2) (1 / 2) (1 / 2) (1 / 2)).psnr ≤ 40 ∧
            0.7 ≤ (generateMetrics .lsb (1 / 2) (1 / 2) (1 / 2) (1 / 2)).ssim ∧
            (generateMetrics .lsb (1 / 2) (1 / 2) (1 / 2) (1 / 2)).ssim ≤ 0.9)) ∧
        (30 ≤ (part002Metrics (1 / 2) (1 / 2) (1 / 2)).psnr ∧
          (part002Metrics (1 / 2) (1 / 2) (1 / 2)).psnr ≤ 40 ∧
          0.7 ≤ (part002Metrics (1 / 2) (1 / 2) (1 / 2)).ssim ∧
          (part002Metrics (1 / 2) (1 / 2) (1 / 2)).ssim ≤ 1)) :=
  ⟨by norm_num, by norm_num,
    metrics_ranges .lsb (1 / 2) (1 / 2) (1 / 2) (1 / 2)
      (by norm_num) (by norm_num) (by norm_num) (by norm_num)⟩

/-- Counterexample to C9 as stated: two distinct Operation Records created
by rapid successive forward completions within the same clock millisecond
receive the very same identifier — `Date.now().toString()` is only
non-decreasing, not strictly increasing. -/
theorem same_millisecond_id_collision :
    mkHistoryItem 1700000000000 "a.png" .aes "u1" none ⟨0, 0, 0, 0⟩ ≠
        mkHistoryItem 1700000000000 "b.png" .aes "u1" none ⟨0, 0, 0, 0⟩ ∧
      (mkHistoryItem 1700000000000 "a.png" .aes "u1" none ⟨0, 0, 0, 0⟩).id =
        (mkHistoryItem 1700000000000 "b.png" .aes "u1" none ⟨0, 0, 0, 0⟩).id := by
  exact ⟨by decide, rfl⟩

/-- C9 (amended): identifiers are the decimal string of the clock reading at
creation, so two records whose creation clock readings (milliseconds)
differ always carry distinct identifiers; only records created within the
same millisecond can collide. -/
theorem distinct_clock_distinct_ids (t1 t2 : Nat) (n1 n2 : String) (a1 a2 : Algorithm)
    (u1 u2 : String) (f1 f2 : Option String) (m1 m2 : MetricsData) (h : t1 ≠ t2) :
    (mkHistoryItem t1 n1 a1 u1 f1 m1).id ≠ (mkHistoryItem t2 n2 a2 u2 f2 m2).id :=
  fun hid => h (jsNatToString_injective hid)

/-- Witness for the amended C9 at clock readings 1 and 2. -/
theorem distinct_clock_distinct_ids_witness :
    (1 : Nat) ≠ 2 ∧
      (mkHistoryItem 1 "a.png" .aes "u" none ⟨0, 0, 0, 0⟩).id ≠
        (mkHistoryItem 2 "a.png" .aes "u" none ⟨0, 0, 0, 0⟩).id :=
  ⟨by decide,
    distinct_clock_distinct_ids 1 2 "a.png" "a.png" .aes .aes "u" "u" none none
      ⟨0, 0, 0, 0⟩ ⟨0, 0, 0, 0⟩ (by decide)⟩
